import Mathlib

/-!
Shallow embedding of the core of the RockPaperScissor repository
(`src/rps.py`): the gesture classifier `detect_gesture` and the round
resolver `GameLogic.determine_winner`, together with proofs of the
specified properties.

Conventions of the embedding:
* MediaPipe landmarks carry normalized coordinates; we model a landmark
  as a pair of rationals (the `z` coordinate is unused by the code).
* Python list indexing `landmarks[i]` raises `IndexError` when the index
  is out of range; we model fallible indexing with `Except Unit`.
* Python dict lookup `d[k]` raises `KeyError` on a missing key; the
  `choices` and `victories` dictionaries are modelled as
  `String → Option (List String)` and a missing key propagates as
  `Except.error ()`.
-/

/-- A hand landmark: normalized image-plane coordinates.  Only `y` is read
by the classifier; `x` is kept to mirror the data model. -/
structure Landmark where
  x : ℚ
  y : ℚ
deriving DecidableEq

/-- The fixed extension margin `0.05` from `is_finger_extended`'s default
`threshold` argument (always used with the default in the source). -/
def threshold : ℚ := 5 / 100

/-- `is_finger_extended(tip, mcp, threshold=0.05)` from `src/rps.py`:
`tip.y < mcp.y - threshold`. -/
def is_finger_extended (tip mcp : Landmark) : Bool :=
  decide (tip.y < mcp.y - threshold)

/-- Python list indexing: `landmarks[i]` raises `IndexError` when the
index is out of range (the source only uses non-negative indices). -/
def pyIndex (l : List Landmark) (i : Nat) : Except Unit Landmark :=
  match l.get? i with
  | some v => Except.ok v
  | none => Except.error ()

set_option linter.unusedVariables false in
/-- The `if`/`elif` chain of `detect_gesture` (lines 99-117 of
`src/rps.py`) over the five extension states, ending in `return None`. -/
def patternChain (thumb_extended index_extended middle_extended ring_extended
    pinky_extended : Bool) (game_mode : String) : Option String :=
  if game_mode = "RPS" then
    if !index_extended && !middle_extended && !ring_extended && !pinky_extended then
      some "Rock"
    else if index_extended && middle_extended && ring_extended && pinky_extended then
      some "Paper"
    else if index_extended && middle_extended && !ring_extended && !pinky_extended then
      some "Scissors"
    else none
  else if game_mode = "RPSLS" then
    if !index_extended && !middle_extended && ring_extended && pinky_extended then
      some "Lizard"
    else if index_extended && middle_extended && !ring_extended && pinky_extended then
      some "Spock"
    else if !index_extended && !middle_extended && !ring_extended && !pinky_extended then
      some "Rock"
    else if index_extended && middle_extended && ring_extended && pinky_extended then
      some "Paper"
    else if index_extended && middle_extended && !ring_extended && !pinky_extended then
      some "Scissors"
    else none
  else none

/-- `detect_gesture(landmarks, game_mode="RPS")` from `src/rps.py`.  The
ten landmark reads `landmarks[4], landmarks[2], ..., landmarks[20],
landmarks[17]` happen first, in source order, and any out-of-range index
raises (`Except.error`); otherwise the gesture (or `None`) is returned. -/
def detect_gesture (landmarks : List Landmark) (game_mode : String) :
    Except Unit (Option String) :=
  (pyIndex landmarks 4).bind fun thumb_tip =>
  (pyIndex landmarks 2).bind fun thumb_mcp =>
  (pyIndex landmarks 8).bind fun index_tip =>
  (pyIndex landmarks 5).bind fun index_mcp =>
  (pyIndex landmarks 12).bind fun middle_tip =>
  (pyIndex landmarks 9).bind fun middle_mcp =>
  (pyIndex landmarks 16).bind fun ring_tip =>
  (pyIndex landmarks 13).bind fun ring_mcp =>
  (pyIndex landmarks 20).bind fun pinky_tip =>
  (pyIndex landmarks 17).bind fun pinky_mcp =>
  let thumb_extended := is_finger_extended thumb_tip thumb_mcp
  let index_extended := is_finger_extended index_tip index_mcp
  let middle_extended := is_finger_extended middle_tip middle_mcp
  let ring_extended := is_finger_extended ring_tip ring_mcp
  let pinky_extended := is_finger_extended pinky_tip pinky_mcp
  Except.ok (patternChain thumb_extended index_extended middle_extended
    ring_extended pinky_extended game_mode)

/-- The extension state of the finger with the given tip/MCP indices, as
read off a well-formed landmark list (used to state theorems). -/
def fingerExt (l : List Landmark) (tipIdx mcpIdx : Nat) : Bool :=
  match l.get? tipIdx, l.get? mcpIdx with
  | some tip, some mcp => is_finger_extended tip mcp
  | _, _ => false

/-- `self.choices` of `GameLogic`: the vocabulary per game mode; `none`
models a `KeyError` for an unknown mode. -/
def choices (game_mode : String) : Option (List String) :=
  if game_mode = "RPS" then some ["Rock", "Paper", "Scissors"]
  else if game_mode = "RPSLS" then
    some ["Rock", "Paper", "Scissors", "Lizard", "Spock"]
  else none

/-- The `victories` dict built by `determine_winner` when
`game_mode == "RPSLS"`. -/
def victoriesRPSLS (g : String) : Option (List String) :=
  if g = "Rock" then some ["Scissors", "Lizard"]
  else if g = "Paper" then some ["Rock", "Spock"]
  else if g = "Scissors" then some ["Paper", "Lizard"]
  else if g = "Lizard" then some ["Spock", "Paper"]
  else if g = "Spock" then some ["Scissors", "Rock"]
  else none

/-- The `victories` dict built by `determine_winner` for any other
`game_mode` (reached only for `"RPS"`, after the vocabulary check). -/
def victoriesRPS (g : String) : Option (List String) :=
  if g = "Rock" then some ["Scissors"]
  else if g = "Paper" then some ["Rock"]
  else if g = "Scissors" then some ["Paper"]
  else none

/-- `GameLogic.determine_winner`, generalized over the two victory
tables.  The source builds the `victories` dict only after the
vocabulary and tie checks, so an early return never consults it; the
generalization makes that independence provable. -/
def determine_winner_tbl (tblRPSLS tblRPS : String → Option (List String))
    (player_choice ai_choice game_mode : String) : Except Unit String :=
  match choices game_mode with
  | none => Except.error ()
  | some vocab =>
    if player_choice ∉ vocab ∨ ai_choice ∉ vocab then
      Except.ok "Invalid gesture"
    else if player_choice = ai_choice then
      Except.ok "Tie"
    else
      let victories := if game_mode = "RPSLS" then tblRPSLS else tblRPS
      match victories player_choice with
      | none => Except.error ()
      | some defeats =>
        Except.ok (if ai_choice ∈ defeats then "Win" else "Lose")

/-- `GameLogic.determine_winner(player_choice, ai_choice, game_mode)`
from `src/rps.py`: `Except.error ()` models the `KeyError` raised by
`self.choices[game_mode]` on an unknown mode. -/
def determine_winner (player_choice ai_choice game_mode : String) :
    Except Unit String :=
  determine_winner_tbl victoriesRPSLS victoriesRPS player_choice ai_choice game_mode

/-- The active vocabulary of a game mode (empty for unknown modes);
used to state theorems. -/
def vocabOf (game_mode : String) : List String :=
  (choices game_mode).getD []

/-! ### Spec-side definitions (for refinement claims) -/

/-- Modelled from the spec's decision-policy table (§4.1): the label
determined by the four-finger extension tuple (index, middle, ring,
pinky) for each rule set, rows checked in table order. -/
def specPattern (ruleSet : String) (i m r p : Bool) : Option String :=
  if ruleSet = "RPS" then
    if (i, m, r, p) = (false, false, false, false) then some "Rock"
    else if (i, m, r, p) = (true, true, true, true) then some "Paper"
    else if (i, m, r, p) = (true, true, false, false) then some "Scissors"
    else none
  else if ruleSet = "RPSLS" then
    if (i, m, r, p) = (false, false, true, true) then some "Lizard"
    else if (i, m, r, p) = (true, true, false, true) then some "Spock"
    else if (i, m, r, p) = (false, false, false, false) then some "Rock"
    else if (i, m, r, p) = (true, true, true, true) then some "Paper"
    else if (i, m, r, p) = (true, true, false, false) then some "Scissors"
    else none
  else none

/-- Modelled from the spec's victory tables (§4.2): the ordered-pair
win relation, player gesture first. -/
def specWinPairs (ruleSet : String) : List (String × String) :=
  if ruleSet = "RPS" then
    [("Rock", "Scissors"), ("Paper", "Rock"), ("Scissors", "Paper")]
  else
    [("Rock", "Scissors"), ("Rock", "Lizard"), ("Paper", "Rock"),
     ("Paper", "Spock"), ("Scissors", "Paper"), ("Scissors", "Lizard"),
     ("Lizard", "Spock"), ("Lizard", "Paper"), ("Spock", "Scissors"),
     ("Spock", "Rock")]

/-! ### Helper lemmas -/

/-- With at least 21 landmarks, every read succeeds and `detect_gesture`
returns the pattern chain applied to the five extension states. -/
theorem detect_gesture_ok (l : List Landmark) (h : 21 ≤ l.length)
    (game_mode : String) :
    detect_gesture l game_mode =
      Except.ok (patternChain (fingerExt l 4 2) (fingerExt l 8 5)
        (fingerExt l 12 9) (fingerExt l 16 13) (fingerExt l 20 17)
        game_mode) := by
  have e4 : l[4]? = some (l.get ⟨4, by omega⟩) := List.getElem?_eq_getElem (by omega)
  have e2 : l[2]? = some (l.get ⟨2, by omega⟩) := List.getElem?_eq_getElem (by omega)
  have e8 : l[8]? = some (l.get ⟨8, by omega⟩) := List.getElem?_eq_getElem (by omega)
  have e5 : l[5]? = some (l.get ⟨5, by omega⟩) := List.getElem?_eq_getElem (by omega)
  have e12 : l[12]? = some (l.get ⟨12, by omega⟩) := List.getElem?_eq_getElem (by omega)
  have e9 : l[9]? = some (l.get ⟨9, by omega⟩) := List.getElem?_eq_getElem (by omega)
  have e16 : l[16]? = some (l.get ⟨16, by omega⟩) := List.getElem?_eq_getElem (by omega)
  have e13 : l[13]? = some (l.get ⟨13, by omega⟩) := List.getElem?_eq_getElem (by omega)
  have e20 : l[20]? = some (l.get ⟨20, by omega⟩) := List.getElem?_eq_getElem (by omega)
  have e17 : l[17]? = some (l.get ⟨17, by omega⟩) := List.getElem?_eq_getElem (by omega)
  simp [detect_gesture, pyIndex, fingerExt, e4, e2, e8, e5, e12, e9, e16, e13,
    e20, e17, Except.bind]

/-- With fewer than 21 landmarks, `detect_gesture` raises (some read is
out of range). -/
theorem detect_gesture_err (l : List Landmark) (h : l.length < 21)
    (game_mode : String) :
    detect_gesture l game_mode = Except.error () := by
  have e20 : l[20]? = none := List.getElem?_eq_none (by omega)
  rcases h4 : l[4]? with _ | a4
  case none => simp [detect_gesture, pyIndex, h4, Except.bind]
  rcases h2 : l[2]? with _ | a2
  case none => simp [detect_gesture, pyIndex, h4, h2, Except.bind]
  rcases h8 : l[8]? with _ | a8
  case none => simp [detect_gesture, pyIndex, h4, h2, h8, Except.bind]
  rcases h5 : l[5]? with _ | a5
  case none => simp [detect_gesture, pyIndex, h4, h2, h8, h5, Except.bind]
  rcases h12 : l[12]? with _ | a12
  case none => simp [detect_gesture, pyIndex, h4, h2, h8, h5, h12, Except.bind]
  rcases h9 : l[9]? with _ | a9
  case none => simp [detect_gesture, pyIndex, h4, h2, h8, h5, h12, h9, Except.bind]
  rcases h16 : l[16]? with _ | a16
  case none =>
    simp [detect_gesture, pyIndex, h4, h2, h8, h5, h12, h9, h16, Except.bind]
  rcases h13 : l[13]? with _ | a13
  case none =>
    simp [detect_gesture, pyIndex, h4, h2, h8, h5, h12, h9, h16, h13, Except.bind]
  simp [detect_gesture, pyIndex, h4, h2, h8, h5, h12, h9, h16, h13, e20,
    Except.bind]

/-- The thumb extension state never reaches the pattern chain's output:
`thumb_extended` is computed but unused. -/
theorem patternChain_thumb_irrel (t t2 i m r p : Bool) (game_mode : String) :
    patternChain t i m r p game_mode = patternChain t2 i m r p game_mode := rfl

/-- On a well-formed list, `fingerExt` is `is_finger_extended` of the two
landmarks read by `get?`. -/
theorem fingerExt_agree (l l2 : List Landmark) (tipIdx mcpIdx : Nat)
    (htip : l.get? tipIdx = l2.get? tipIdx)
    (hmcp : l.get? mcpIdx = l2.get? mcpIdx) :
    fingerExt l tipIdx mcpIdx = fingerExt l2 tipIdx mcpIdx := by
  simp only [fingerExt, htip, hmcp]

/-! ### Claims about the Gesture Classifier -/

/-- C1: for every 21-point landmark set and each of the two rule sets,
`detect_gesture` computes per-finger extension as
`tip.y < mcp.y - 0.05` and returns exactly the label that the spec's
pattern table assigns to the (index, middle, ring, pinky) extension
tuple; every unlisted tuple yields "undetected" (`none`). -/
theorem detect_gesture_matches_spec_table (l : List Landmark)
    (h : l.length = 21) (game_mode : String)
    (hm : game_mode = "RPS" ∨ game_mode = "RPSLS") :
    detect_gesture l game_mode =
      Except.ok (specPattern game_mode (fingerExt l 8 5) (fingerExt l 12 9)
        (fingerExt l 16 13) (fingerExt l 20 17)) := by
  rw [detect_gesture_ok l (by omega)]
  rcases hm with rfl | rfl <;>
    cases fingerExt l 8 5 <;> cases fingerExt l 12 9 <;>
    cases fingerExt l 16 13 <;> cases fingerExt l 20 17 <;>
    simp [patternChain, specPattern]

/-- Witness for C1: a concrete fist (all tips level with their MCPs) in
3-choice mode classifies as Rock, matching the spec table's
(F,F,F,F) row. -/
theorem detect_gesture_matches_spec_table_witness :
    detect_gesture (List.replicate 21 ⟨0, 1⟩) "RPS" =
      Except.ok (specPattern "RPS"
        (fingerExt (List.replicate 21 ⟨0, 1⟩) 8 5)
        (fingerExt (List.replicate 21 ⟨0, 1⟩) 12 9)
        (fingerExt (List.replicate 21 ⟨0, 1⟩) 16 13)
        (fingerExt (List.replicate 21 ⟨0, 1⟩) 20 17)) :=
  detect_gesture_matches_spec_table _ (by simp) _ (Or.inl rfl)

/-- C6: two 21-point landmark sets that agree everywhere except possibly
at the thumb landmarks (indices 2 and 4) classify identically under
every rule-set argument. -/
theorem detect_gesture_thumb_independent (l l2 : List Landmark)
    (h : l.length = 21) (h2 : l2.length = 21)
    (hagree : ∀ i, i < 21 → i ≠ 2 → i ≠ 4 → l.get? i = l2.get? i)
    (game_mode : String) :
    detect_gesture l game_mode = detect_gesture l2 game_mode := by
  rw [detect_gesture_ok l (by omega), detect_gesture_ok l2 (by omega)]
  rw [fingerExt_agree l l2 8 5 (hagree 8 (by omega) (by omega) (by omega))
        (hagree 5 (by omega) (by omega) (by omega)),
      fingerExt_agree l l2 12 9 (hagree 12 (by omega) (by omega) (by omega))
        (hagree 9 (by omega) (by omega) (by omega)),
      fingerExt_agree l l2 16 13 (hagree 16 (by omega) (by omega) (by omega))
        (hagree 13 (by omega) (by omega) (by omega)),
      fingerExt_agree l l2 20 17 (hagree 20 (by omega) (by omega) (by omega))
        (hagree 17 (by omega) (by omega) (by omega))]
  exact congrArg Except.ok (patternChain_thumb_irrel _ _ _ _ _ _ _)

/-- Witness for C6: two concrete 21-point lists differing only in the
thumb tip (index 4) and thumb MCP (index 2) classify the same. -/
theorem detect_gesture_thumb_independent_witness :
    detect_gesture
        (List.replicate 21 (⟨0, 1⟩ : Landmark)) "RPS" =
      detect_gesture
        ((List.replicate 21 (⟨0, 1⟩ : Landmark)).set 4 ⟨0, 0⟩
          |>.set 2 ⟨0, 2⟩) "RPS" :=
  detect_gesture_thumb_independent _ _ (by simp) (by simp)
    (by decide) _

/-- C10: for any rule-set argument other than `"RPS"` and `"RPSLS"`,
`detect_gesture` returns "undetected" (`None`) on every 21-point
landmark set, without error. -/
theorem detect_gesture_unknown_mode (l : List Landmark) (h : l.length = 21)
    (game_mode : String) (h1 : game_mode ≠ "RPS") (h2 : game_mode ≠ "RPSLS") :
    detect_gesture l game_mode = Except.ok none := by
  rw [detect_gesture_ok l (by omega)]
  simp [patternChain, h1, h2]

/-- Witness for C10: a concrete 21-point landmark set under the unknown
mode "Classic" yields `None` without error. -/
theorem detect_gesture_unknown_mode_witness :
    detect_gesture (List.replicate 21 (⟨0, 1⟩ : Landmark)) "Classic" =
      Except.ok none :=
  detect_gesture_unknown_mode _ (by simp) _ (by decide) (by decide)

/-- C9: finger extension is a strict inequality: it holds exactly when
`tip.y` is strictly below `mcp.y - 0.05`; at exact equality the finger
is NOT extended. -/
theorem is_finger_extended_strict (tip mcp : Landmark) :
    (is_finger_extended tip mcp = true ↔ tip.y < mcp.y - threshold) ∧
    (tip.y = mcp.y - threshold → is_finger_extended tip mcp = false) := by
  refine ⟨by simp [is_finger_extended], fun h => ?_⟩
  simp [is_finger_extended, h]

/-- Witness for C9: with `mcp.y = 1` the boundary value `tip.y = 19/20`
(exactly `mcp.y - 0.05`) is classified as not extended. -/
theorem is_finger_extended_strict_witness :
    is_finger_extended ⟨0, 19 / 20⟩ ⟨0, 1⟩ = false :=
  (is_finger_extended_strict ⟨0, 19 / 20⟩ ⟨0, 1⟩).2 (by norm_num [threshold])

/-- A 21-point landmark set whose coordinates all lie outside [0,1]
(`y = 2`): used to refute C7's out-of-range clause. -/
def outOfRangeLandmarks : List Landmark := List.replicate 21 ⟨2, 2⟩

/-- Counterexample to C7 as stated: `outOfRangeLandmarks` has 21 points
whose coordinates are all outside [0,1] (every point has `x = y = 2`),
and a 22-point list has the wrong cardinality — both are malformed in
the claim's sense — yet `detect_gesture` signals no error on either: it
returns the gesture "Rock". -/
theorem detect_gesture_no_range_check :
    outOfRangeLandmarks.length = 21 ∧
    (∀ p ∈ outOfRangeLandmarks, p.y = 2 ∧ p.x = 2) ∧
    detect_gesture outOfRangeLandmarks "RPS" = Except.ok (some "Rock") ∧
    detect_gesture (List.replicate 22 (⟨2, 2⟩ : Landmark)) "RPS" =
      Except.ok (some "Rock") := by
  refine ⟨by simp [outOfRangeLandmarks], ?_, ?_, ?_⟩
  · intro p hp
    rw [List.eq_of_mem_replicate hp]
    exact ⟨rfl, rfl⟩
  · rw [detect_gesture_ok _ (by simp [outOfRangeLandmarks])]
    norm_num [outOfRangeLandmarks, fingerExt, patternChain, is_finger_extended,
      threshold]
  · rw [detect_gesture_ok _ (by simp)]
    norm_num [fingerExt, patternChain, is_finger_extended, threshold]

/-- C7 amended: `detect_gesture` signals an error exactly when the
landmark set has fewer than 21 points (an out-of-range read); with 21 or
more points it never errors, and coordinates are never range-checked. -/
theorem detect_gesture_error_iff (l : List Landmark) (game_mode : String) :
    detect_gesture l game_mode = Except.error () ↔ l.length < 21 := by
  constructor
  · intro herr
    by_contra hlen
    rw [detect_gesture_ok l (by omega)] at herr
    exact Except.noConfusion herr
  · intro hlen
    exact detect_gesture_err l hlen game_mode

/-- Decidable equality of resolver results, so concrete rounds can be
checked by `decide`. -/
instance decEqExceptUnitString : DecidableEq (Except Unit String) :=
  fun a b =>
    match a, b with
    | Except.ok x, Except.ok y =>
        if h : x = y then isTrue (congrArg Except.ok h)
        else isFalse (fun hh => h (Except.ok.inj hh))
    | Except.error x, Except.error y => isTrue (by cases x; cases y; rfl)
    | Except.ok x, Except.error y => isFalse (fun hh => Except.noConfusion hh)
    | Except.error x, Except.ok y => isFalse (fun hh => Except.noConfusion hh)

/-- Out-of-vocabulary input short-circuits `determine_winner` to
"Invalid gesture" for any pair of victory tables. -/
theorem invalid_of_not_mem (tblRPSLS tblRPS : String → Option (List String))
    (g1 g2 mode : String) (hm : mode = "RPS" ∨ mode = "RPSLS")
    (hout : g1 ∉ vocabOf mode ∨ g2 ∉ vocabOf mode) :
    determine_winner_tbl tblRPSLS tblRPS g1 g2 mode =
      Except.ok "Invalid gesture" := by
  rcases hm with rfl | rfl <;> rcases hout with hout | hout <;>
    simp_all [vocabOf, choices, determine_winner_tbl]

/-! ### Claims about the Round Resolver -/

/-- C3: for either rule set, if either gesture label is outside the
active vocabulary, `determine_winner` returns "Invalid gesture", and
the victory tables are never consulted (the result is the same for
every choice of tables). -/
theorem determine_winner_invalid_skips_tables (g1 g2 mode : String)
    (hm : mode = "RPS" ∨ mode = "RPSLS")
    (hout : g1 ∉ vocabOf mode ∨ g2 ∉ vocabOf mode)
    (tblRPSLS tblRPS : String → Option (List String)) :
    determine_winner_tbl tblRPSLS tblRPS g1 g2 mode =
      Except.ok "Invalid gesture" :=
  invalid_of_not_mem tblRPSLS tblRPS g1 g2 mode hm hout

/-- Witness for C3: `resolve_round("Lizard", "Rock", "RPS")` is Invalid
(Lizard is not in the 3-choice vocabulary), instantiated at the actual
victory tables so that it computes `determine_winner` itself. -/
theorem determine_winner_invalid_skips_tables_witness :
    determine_winner "Lizard" "Rock" "RPS" = Except.ok "Invalid gesture" :=
  determine_winner_invalid_skips_tables "Lizard" "Rock" "RPS" (Or.inl rfl)
    (Or.inl (by decide)) victoriesRPSLS victoriesRPS

/-- C2: for distinct in-vocabulary gestures, `determine_winner` returns
"Win" exactly when the (player, AI) pair is in the active victory
table's win relation as the spec lists it, and "Lose" otherwise. -/
theorem determine_winner_win_iff (g1 g2 mode : String)
    (hm : mode = "RPS" ∨ mode = "RPSLS")
    (h1 : g1 ∈ vocabOf mode) (h2 : g2 ∈ vocabOf mode) (hne : g1 ≠ g2) :
    (determine_winner g1 g2 mode = Except.ok "Win" ↔
      (g1, g2) ∈ specWinPairs mode) ∧
    (determine_winner g1 g2 mode = Except.ok "Lose" ↔
      (g1, g2) ∉ specWinPairs mode) := by
  rcases hm with rfl | rfl
  · have m1 : g1 ∈ ["Rock", "Paper", "Scissors"] := h1
    have m2 : g2 ∈ ["Rock", "Paper", "Scissors"] := h2
    fin_cases m1 <;> fin_cases m2 <;> first
      | exact absurd rfl hne
      | decide
  · have m1 : g1 ∈ ["Rock", "Paper", "Scissors", "Lizard", "Spock"] := h1
    have m2 : g2 ∈ ["Rock", "Paper", "Scissors", "Lizard", "Spock"] := h2
    fin_cases m1 <;> fin_cases m2 <;> first
      | exact absurd rfl hne
      | decide

/-- Witness for C2: Rock beats Scissors in 3-choice mode. -/
theorem determine_winner_win_iff_witness :
    (determine_winner "Rock" "Scissors" "RPS" = Except.ok "Win" ↔
      ("Rock", "Scissors") ∈ specWinPairs "RPS") ∧
    (determine_winner "Rock" "Scissors" "RPS" = Except.ok "Lose" ↔
      ("Rock", "Scissors") ∉ specWinPairs "RPS") :=
  determine_winner_win_iff "Rock" "Scissors" "RPS" (Or.inl rfl) (by decide)
    (by decide) (by decide)

/-- C4: for in-vocabulary gestures, the round is a Tie exactly when the
two gestures are equal. -/
theorem determine_winner_tie_iff (g1 g2 mode : String)
    (hm : mode = "RPS" ∨ mode = "RPSLS")
    (h1 : g1 ∈ vocabOf mode) (h2 : g2 ∈ vocabOf mode) :
    determine_winner g1 g2 mode = Except.ok "Tie" ↔ g1 = g2 := by
  rcases hm with rfl | rfl
  · have m1 : g1 ∈ ["Rock", "Paper", "Scissors"] := h1
    have m2 : g2 ∈ ["Rock", "Paper", "Scissors"] := h2
    fin_cases m1 <;> fin_cases m2 <;> decide
  · have m1 : g1 ∈ ["Rock", "Paper", "Scissors", "Lizard", "Spock"] := h1
    have m2 : g2 ∈ ["Rock", "Paper", "Scissors", "Lizard", "Spock"] := h2
    fin_cases m1 <;> fin_cases m2 <;> decide

/-- Witness for C4: Paper vs Paper in 3-choice mode ties. -/
theorem determine_winner_tie_iff_witness :
    determine_winner "Paper" "Paper" "RPS" = Except.ok "Tie" ↔
      ("Paper" : String) = "Paper" :=
  determine_winner_tie_iff "Paper" "Paper" "RPS" (Or.inl rfl) (by decide)
    (by decide)

/-- C5: for distinct in-vocabulary gestures, exactly one direction of
the pair wins: either (g1, g2) is a Win and (g2, g1) is not, or the
other way around. -/
theorem determine_winner_antisymmetry (g1 g2 mode : String)
    (hm : mode = "RPS" ∨ mode = "RPSLS")
    (h1 : g1 ∈ vocabOf mode) (h2 : g2 ∈ vocabOf mode) (hne : g1 ≠ g2) :
    (determine_winner g1 g2 mode = Except.ok "Win" ∧
       ¬ determine_winner g2 g1 mode = Except.ok "Win") ∨
    (¬ determine_winner g1 g2 mode = Except.ok "Win" ∧
       determine_winner g2 g1 mode = Except.ok "Win") := by
  rcases hm with rfl | rfl
  · have m1 : g1 ∈ ["Rock", "Paper", "Scissors"] := h1
    have m2 : g2 ∈ ["Rock", "Paper", "Scissors"] := h2
    fin_cases m1 <;> fin_cases m2 <;> first
      | exact absurd rfl hne
      | decide
  · have m1 : g1 ∈ ["Rock", "Paper", "Scissors", "Lizard", "Spock"] := h1
    have m2 : g2 ∈ ["Rock", "Paper", "Scissors", "Lizard", "Spock"] := h2
    fin_cases m1 <;> fin_cases m2 <;> first
      | exact absurd rfl hne
      | decide

/-- Witness for C5: Spock vs Rock in 5-choice mode: Spock wins and Rock
does not win the reverse round. -/
theorem determine_winner_antisymmetry_witness :
    (determine_winner "Spock" "Rock" "RPSLS" = Except.ok "Win" ∧
       ¬ determine_winner "Rock" "Spock" "RPSLS" = Except.ok "Win") ∨
    (¬ determine_winner "Spock" "Rock" "RPSLS" = Except.ok "Win" ∧
       determine_winner "Rock" "Spock" "RPSLS" = Except.ok "Win") :=
  determine_winner_antisymmetry "Spock" "Rock" "RPSLS" (Or.inr rfl)
    (by decide) (by decide) (by decide)

/-- C8 amended: for the two defined rule sets, `determine_winner` is
total on all gesture-label pairs: it never raises and always returns
one of Win, Lose, Tie, Invalid. -/
theorem determine_winner_total (g1 g2 mode : String)
    (hm : mode = "RPS" ∨ mode = "RPSLS") :
    determine_winner g1 g2 mode = Except.ok "Win" ∨
    determine_winner g1 g2 mode = Except.ok "Lose" ∨
    determine_winner g1 g2 mode = Except.ok "Tie" ∨
    determine_winner g1 g2 mode = Except.ok "Invalid gesture" := by
  by_cases h1 : g1 ∈ vocabOf mode
  · by_cases h2 : g2 ∈ vocabOf mode
    · rcases hm with rfl | rfl
      · have m1 : g1 ∈ ["Rock", "Paper", "Scissors"] := h1
        have m2 : g2 ∈ ["Rock", "Paper", "Scissors"] := h2
        fin_cases m1 <;> fin_cases m2 <;> decide
      · have m1 : g1 ∈ ["Rock", "Paper", "Scissors", "Lizard", "Spock"] := h1
        have m2 : g2 ∈ ["Rock", "Paper", "Scissors", "Lizard", "Spock"] := h2
        fin_cases m1 <;> fin_cases m2 <;> decide
    · exact Or.inr (Or.inr (Or.inr
        (invalid_of_not_mem victoriesRPSLS victoriesRPS g1 g2 mode hm
          (Or.inr h2))))
  · exact Or.inr (Or.inr (Or.inr
      (invalid_of_not_mem victoriesRPSLS victoriesRPS g1 g2 mode hm
        (Or.inl h1))))

/-- Witness for C8: a concrete round (Rock vs Paper, 3-choice) returns
one of the defined outcomes. -/
theorem determine_winner_total_witness :
    determine_winner "Rock" "Paper" "RPS" = Except.ok "Win" ∨
    determine_winner "Rock" "Paper" "RPS" = Except.ok "Lose" ∨
    determine_winner "Rock" "Paper" "RPS" = Except.ok "Tie" ∨
    determine_winner "Rock" "Paper" "RPS" = Except.ok "Invalid gesture" :=
  determine_winner_total "Rock" "Paper" "RPS" (Or.inl rfl)

/-- Counterexample to C8 as stated: for the rule-set argument
"Tournament" (neither "RPS" nor "RPSLS"), `determine_winner` raises
(a `KeyError` from `self.choices[game_mode]`) instead of returning a
Round Outcome. -/
theorem determine_winner_unknown_mode_raises :
    determine_winner "Rock" "Rock" "Tournament" = Except.error () := by decide
